import Mathlib

/-!
Shallow embedding of `src/desktop/DesktopUtils.ts` (class `DesktopUtils`).

The TypeScript code is effectful: it talks to the filesystem, to the
Electron `app` object and to child processes.  We embed it by passing the
relevant state explicitly: filesystem contents are records, the outcomes of
OS calls (lock grants, process exit codes, OS-API booleans) are parameters
of the model, and observable side effects are collected in traces.
-/

namespace DesktopUtils

/-! ## Single-instance lock file model

`singleInstanceLockOverridden` and `makeSingleInstance` use
`fs.promises.readFile` / `fs.promises.writeFile` on the lock file at
`<temp>/tutanota_desktop_lockfile` plus `app.requestSingleInstanceLock`,
`app.getVersion`, `app.quit` and `delay(1500)`.  We model the lock file as
an optional string, with injected read/write faults, and the Electron app
as an environment giving the version and the results of the (at most two)
`requestSingleInstanceLock` calls. -/

structure LockFs where
  /-- content of the lock file; `none` means the file does not exist -/
  lock : Option String
  /-- injected fault: `fs.promises.readFile` rejects -/
  readFails : Bool
  /-- injected fault: `fs.promises.writeFile` rejects -/
  writeFails : Bool
deriving Repr, DecidableEq

structure AppEnv where
  /-- `app.getVersion()` -/
  version : String
  /-- result of the first `app.requestSingleInstanceLock()` call -/
  lockGranted1 : Bool
  /-- result of a second `app.requestSingleInstanceLock()` call, if made -/
  lockGranted2 : Bool
  /-- value another running instance writes into the lock file during the
  1500 ms grace period, if any (the cross-process race the code is built
  around: the already-running instance may write its version back while
  this process waits) -/
  otherWriteDuringWait : Option String
deriving Repr, DecidableEq

/-- The effect the concurrently running instance has on the lock file
during the grace period. -/
def applyInterference (fs : LockFs) : Option String → LockFs
  | none => fs
  | some v => { fs with lock := some v }

/-- `fs.promises.readFile(lockfilePath, "utf8")`: rejects when the injected
read fault is set or the file is absent. -/
def readLockFile (fs : LockFs) : Except Unit String :=
  if fs.readFails then .error ()
  else
    match fs.lock with
    | none => .error ()
    | some s => .ok s

/-- `fs.promises.writeFile(lockfilePath, v, "utf8")`: rejects when the
injected write fault is set, otherwise overwrites the file. -/
def writeLockFile (fs : LockFs) (v : String) : Except Unit LockFs :=
  if fs.writeFails then .error ()
  else .ok { fs with lock := some v }

/-- `DesktopUtils.singleInstanceLockOverridden` (DesktopUtils.ts:87-95):
read the lock file, then write the own version into it, resolve to
`version !== app.getVersion()`; any rejection is caught and turned
into `false`. -/
def singleInstanceLockOverridden (env : AppEnv) (fs : LockFs) : Bool × LockFs :=
  match readLockFile fs with
  | .error _ => (false, fs)
  | .ok version =>
    match writeLockFile fs env.version with
    | .error _ => (false, fs)
    | .ok fs1 => (version != env.version, fs1)

/-- Observable events of `makeSingleInstance`, in program order. -/
inductive LockEvent
  /-- the initial best-effort `writeFile` of the own version (`ok` records
  whether it succeeded; a failure is swallowed by `.catch(noOp)`) -/
  | writeVersionFile (ok : Bool)
  /-- a call to `app.requestSingleInstanceLock()` and the value it returned -/
  | requestLock (granted : Bool)
  /-- `delay(ms)` -/
  | delayMs (ms : Nat)
  /-- the `singleInstanceLockOverridden()` call and the `canStay` it produced -/
  | overrideCheck (canStay : Bool)
  /-- `app.quit()` -/
  | quitApp
deriving Repr, DecidableEq

/-- The first step of `makeSingleInstance` (DesktopUtils.ts:113-115):
`writeFile(lockfilePath, app.getVersion(), "utf8").catch(noOp)`.  Returns
whether the write succeeded together with the resulting filesystem. -/
def bestEffortWriteVersion (env : AppEnv) (fs : LockFs) : Bool × LockFs :=
  match writeLockFile fs env.version with
  | .error _ => (false, fs)
  | .ok fs1 => (true, fs1)

/-- `DesktopUtils.makeSingleInstance` (DesktopUtils.ts:108-135): best-effort
write of the own version, then request the OS lock; if granted resolve
`true`, otherwise `delay(1500)`, run `singleInstanceLockOverridden`, request
the lock again (result unused) when `canStay`, `app.quit()` otherwise, and
resolve `canStay`. -/
def makeSingleInstance (env : AppEnv) (fs : LockFs) : Bool × LockFs × List LockEvent :=
  let w := bestEffortWriteVersion env fs
  if env.lockGranted1 then
    (true, w.2, [.writeVersionFile w.1, .requestLock true])
  else
    let o := singleInstanceLockOverridden env (applyInterference w.2 env.otherWriteDuringWait)
    let evs := [LockEvent.writeVersionFile w.1, .requestLock false,
                .delayMs 1500, .overrideCheck o.1]
    if o.1 then
      (true, o.2, evs ++ [.requestLock env.lockGranted2])
    else
      (false, o.2, evs ++ [.quitApp])

/-- Does the event request the OS single-instance lock? -/
def LockEvent.isRequestLock : LockEvent → Bool
  | .requestLock _ => true
  | _ => false

/-! ## Encoders from `@tutao/tutanota-utils`

`uint8ArrayToBase64`, `base64ToBase64Url` and `uint8ArrayToHex` are imported
from the external `@tutao/tutanota-utils` package, whose source is not under
`src/`.  They are modelled from the spec.  Bytes are `Nat`s below 256. -/

/-- The 64 characters of the standard base64 alphabet. -/
def base64Alphabet : List Char :=
  "ABCDEFGHIJKLMNOPQRSTUVWXYZabcdefghijklmnopqrstuvwxyz0123456789+/".toList

def base64Char (n : Nat) : Char := base64Alphabet.getD n 'A'

/-- Modelled from the spec: `uint8ArrayToBase64` of the external
`@tutao/tutanota-utils` package (not under `src/`): the standard base64
encoding of a byte sequence, with `=` padding. -/
def uint8ArrayToBase64 : List Nat → String
  | [] => ""
  | [b0] =>
      ⟨[base64Char (b0 / 4), base64Char (b0 % 4 * 16), '=', '=']⟩
  | [b0, b1] =>
      ⟨[base64Char (b0 / 4), base64Char (b0 % 4 * 16 + b1 / 16),
        base64Char (b1 % 16 * 4), '=']⟩
  | b0 :: b1 :: b2 :: rest =>
      ⟨[base64Char (b0 / 4), base64Char (b0 % 4 * 16 + b1 / 16),
        base64Char (b1 % 16 * 4 + b2 / 64), base64Char (b2 % 64)]⟩
        ++ uint8ArrayToBase64 rest

/-- Modelled from the spec: `base64ToBase64Url` of the external
`@tutao/tutanota-utils` package (not under `src/`): the URL-safe variant,
`+` replaced by `-`, `/` by `_`, padding `=` removed. -/
def base64ToBase64Url (s : String) : String :=
  ⟨s.toList.filterMap fun c =>
    if c = '=' then none
    else if c = '+' then some '-'
    else if c = '/' then some '_'
    else some c⟩

def hexDigit (n : Nat) : Char := "0123456789abcdef".toList.getD n '0'

/-- Modelled from the spec: `uint8ArrayToHex` of the external
`@tutao/tutanota-utils` package (not under `src/`): lower-case hex encoding
of a byte sequence, two digits per byte. -/
def uint8ArrayToHex (bytes : List Nat) : String :=
  ⟨(bytes.map fun b => [hexDigit (b / 16), hexDigit (b % 16)]).flatten⟩

/-! ## Scratch-area filesystem model

`getTutanotaTempPath`, `_writeToDisk`, `_executeRegistryScript` and
`deleteTutanotaTempDir` use `fs.mkdirSync`, `fs.promises.mkdir`,
`fs.promises.writeFile` (with a `mode`), `fs.unlinkSync`, `fs.readdirSync`
and `fs.rmSync`.  Directories and files are lists of paths with their
permission bits (and, for files, their contents). -/

/-- `path.join(a, b)` of node's `path` module, posix flavour. -/
def pathJoin (a b : String) : String := a ++ "/" ++ b

structure FileSys where
  /-- existing directories: path and permission bits -/
  dirs : List (String × Nat)
  /-- existing files: path, permission bits, contents -/
  files : List (String × Nat × String)
deriving Repr, DecidableEq

def FileSys.hasDir (fs : FileSys) (p : String) : Bool :=
  fs.dirs.any fun d => d.1 = p

def FileSys.dirMode (fs : FileSys) (p : String) : Option Nat :=
  (fs.dirs.find? fun d => d.1 = p).map Prod.snd

def FileSys.fileMode (fs : FileSys) (p : String) : Option Nat :=
  (fs.files.find? fun f => f.1 = p).map fun f => f.2.1

def FileSys.fileExists (fs : FileSys) (p : String) : Bool :=
  fs.files.any fun f => f.1 = p

/-- `fs.mkdirSync(p, {recursive: true, mode})` / `fs.promises.mkdir`: a
no-op when the directory already exists (in particular the mode of an
existing directory is not changed), otherwise the directory is created with
the given permission bits. -/
def FileSys.mkdirRecursive (fs : FileSys) (p : String) (mode : Nat) : FileSys :=
  if fs.hasDir p then fs
  else { fs with dirs := (p, mode) :: fs.dirs }

/-- `fs.promises.writeFile(p, contents, {mode})`: creates or replaces the
file. -/
def FileSys.writeFileMode (fs : FileSys) (p : String) (mode : Nat) (contents : String) :
    FileSys :=
  { fs with files := (p, mode, contents) :: fs.files.filter fun f => f.1 ≠ p }

/-- `fs.unlinkSync(p)`: removes the file. -/
def FileSys.unlink (fs : FileSys) (p : String) : FileSys :=
  { fs with files := fs.files.filter fun f => f.1 ≠ p }

/-- `private readonly topLevelTempDir = "tutanota"` (DesktopUtils.ts:15). -/
def topLevelTempDir : String := "tutanota"

/-- The injected `CryptoFunctions` collaborator: `randomBytes(n)` returns
`n` cryptographically strong random bytes.  The model takes the produced
bytes as a function of the requested length. -/
structure CryptoFunctions where
  randomBytes : Nat → List Nat

/-- The state of a `DesktopUtils` instance: its `randomDirectoryName`
field, fixed at construction. -/
structure Utils where
  randomDirectoryName : String
deriving Repr, DecidableEq

/-- The `DesktopUtils` constructor (DesktopUtils.ts:19-25):
`randomDirectoryName = base64ToBase64Url(uint8ArrayToBase64(cryptoFunctions.randomBytes(16)))`. -/
def mkUtils (cryptoFunctions : CryptoFunctions) : Utils :=
  { randomDirectoryName :=
      base64ToBase64Url (uint8ArrayToBase64 (cryptoFunctions.randomBytes 16)) }

/-- `DesktopUtils.getTutanotaTempPath` (DesktopUtils.ts:237-244):
`directory = path.join(app.getPath("temp"), topLevelTempDir, randomDirectoryName)`,
created with `mkdirSync(directory, {recursive: true, mode: 0o700})`;
returns the path.  `tempRoot` is `app.getPath("temp")`. -/
def getTutanotaTempPath (d : Utils) (tempRoot : String) (fs : FileSys) :
    String × FileSys :=
  let directory := pathJoin (pathJoin tempRoot topLevelTempDir) d.randomDirectoryName
  (directory, fs.mkdirRecursive directory 0o700)

/-- `DesktopUtils._writeToDisk` (DesktopUtils.ts:167-179): file name is the
hex encoding of 12 random bytes, the directory is `<scratch>/reg` created
recursively (node's default mode 0o777, before umask), and the file is
written with `mode: 0o400`.  Returns the file path. -/
def writeToDisk (d : Utils) (c : CryptoFunctions) (tempRoot : String)
    (contents : String) (fs : FileSys) : String × FileSys :=
  let filename := uint8ArrayToHex (c.randomBytes 12)
  let scratch := getTutanotaTempPath d tempRoot fs
  let tmpPath := pathJoin scratch.1 "reg"
  let fs1 := scratch.2.mkdirRecursive tmpPath 0o777
  let filePath := pathJoin tmpPath filename
  (filePath, fs1.writeFileMode filePath 0o400 contents)

/-! ## Registry-script execution and the mailto registrar -/

/-- How the spawned `reg.exe` child process terminated: node reports
`(code, signal)` where `code` is `null` exactly when the process was killed
by a signal. -/
inductive ExitStatus
  | exited (code : Nat)
  | signaled (signal : String)
deriving Repr, DecidableEq

/-- Observable side effects of the registrar functions, in program order. -/
inductive Effect
  /-- `spawn(cmd, args, ...)` -/
  | spawned (cmd : String) (args : List String)
  /-- `app.setAsDefaultProtocolClient(scheme)` and the boolean it returned -/
  | setDefaultHandler (scheme : String) (ok : Bool)
  /-- `app.removeAsDefaultProtocolClient(scheme)` and the boolean it returned -/
  | removeDefaultHandler (scheme : String) (ok : Bool)
  /-- `shell.openExternal(url)`; `ok = false` means the promise rejected -/
  | openExternal (url : String) (ok : Bool)
  /-- a `console.error(msg, ...)` log line -/
  | logError (msg : String)
deriving Repr, DecidableEq

/-- `DesktopUtils._executeRegistryScript` (DesktopUtils.ts:142-160): stage
the script with `_writeToDisk`, spawn `reg.exe import <file>`, and on the
child's exit first `unlinkSync` the staged file, then resolve when the exit
code is 0 and reject with "couldn't execute registry script" otherwise
(including termination by signal, where the code is `null`). -/
def executeRegistryScript (d : Utils) (c : CryptoFunctions) (tempRoot : String)
    (script : String) (fs : FileSys) (exit : ExitStatus) :
    Except String Unit × FileSys × List Effect :=
  let staged := writeToDisk d c tempRoot script fs
  let file := staged.1
  let fs2 := staged.2.unlink file
  let evs := [Effect.spawned "reg.exe" ["import", file]]
  match exit with
  | .exited 0 => (.ok (), fs2, evs)
  | _ => (.error "couldn't execute registry script", fs2, evs)

/-- `DesktopUtils._openDefaultAppsSettings` (DesktopUtils.ts:214-221):
`shell.openExternal("ms-settings:defaultapps")`; a rejection is caught and
logged with `console.error`, never propagated (the function always
resolves). -/
def openDefaultAppsSettings (openOk : Bool) : List Effect :=
  if openOk then [.openExternal "ms-settings:defaultapps" true]
  else [.openExternal "ms-settings:defaultapps" false,
        .logError "failed to open default apps settings page:"]

/-- Environment of the registrar functions: the value of
`process.platform`, the outcomes of the OS API calls, and the opaque
script texts produced by the `reg-templater` collaborator (whose source is
not under `src/`; the spec treats its output as an opaque string). -/
structure PlatformEnv where
  platform : String
  /-- result of `app.setAsDefaultProtocolClient("mailto")` -/
  setHandlerOk : Bool
  /-- result of `app.removeAsDefaultProtocolClient("mailto")` -/
  removeHandlerOk : Bool
  /-- exit status of the spawned `reg.exe` process -/
  regExit : ExitStatus
  /-- whether `shell.openExternal("ms-settings:defaultapps")` resolves -/
  openSettingsOk : Bool
  /-- `app.getPath("temp")` -/
  tempRoot : String
  /-- `makeRegisterKeysScript(RegistryRoot.CURRENT_USER, ...)` output -/
  registerScriptText : String
  /-- `makeUnregisterKeysScript(RegistryRoot.CURRENT_USER)` output -/
  unregisterScriptText : String
deriving Repr

/-- `DesktopUtils.doRegisterMailtoOnWin32WithCurrentUser`
(DesktopUtils.ts:181-202): guard on win32 (`ProgrammingError` otherwise),
execute the generated register script (a rejection propagates), then
`setAsDefaultProtocolClient("mailto")` (result ignored), then the
best-effort settings-page step. -/
def doRegisterMailtoOnWin32WithCurrentUser (env : PlatformEnv) (d : Utils)
    (c : CryptoFunctions) (fs : FileSys) : Except String Unit × FileSys × List Effect :=
  if env.platform ≠ "win32" then
    (.error "ProgrammingError: Not win32", fs, [])
  else
    let r := executeRegistryScript d c env.tempRoot env.registerScriptText fs env.regExit
    match r.1 with
    | .error e => (.error e, r.2.1, r.2.2)
    | .ok _ =>
      (.ok (), r.2.1,
        r.2.2 ++ [.setDefaultHandler "mailto" env.setHandlerOk]
             ++ openDefaultAppsSettings env.openSettingsOk)

/-- `DesktopUtils.doUnregisterMailtoOnWin32WithCurrentUser`
(DesktopUtils.ts:204-212): guard on win32, then
`removeAsDefaultProtocolClient("mailto")` (result ignored), execute the
generated unregister script (a rejection propagates), then the best-effort
settings-page step. -/
def doUnregisterMailtoOnWin32WithCurrentUser (env : PlatformEnv) (d : Utils)
    (c : CryptoFunctions) (fs : FileSys) : Except String Unit × FileSys × List Effect :=
  if env.platform ≠ "win32" then
    (.error "ProgrammingError: Not win32", fs, [])
  else
    let ev0 := [Effect.removeDefaultHandler "mailto" env.removeHandlerOk]
    let r := executeRegistryScript d c env.tempRoot env.unregisterScriptText fs env.regExit
    match r.1 with
    | .error e => (.error e, r.2.1, ev0 ++ r.2.2)
    | .ok _ =>
      (.ok (), r.2.1, ev0 ++ r.2.2 ++ openDefaultAppsSettings env.openSettingsOk)

/-- `DesktopUtils.registerAsMailtoHandler` (DesktopUtils.ts:44-62): switch
on `process.platform` with the four branches win32 / darwin / linux /
default. -/
def registerAsMailtoHandler (env : PlatformEnv) (d : Utils) (c : CryptoFunctions)
    (fs : FileSys) : Except String Unit × FileSys × List Effect :=
  if env.platform = "win32" then
    doRegisterMailtoOnWin32WithCurrentUser env d c fs
  else if env.platform = "darwin" then
    if env.setHandlerOk then
      (.ok (), fs, [.setDefaultHandler "mailto" true])
    else
      (.error "Could not register as mailto handler", fs,
        [.setDefaultHandler "mailto" false])
  else if env.platform = "linux" then
    (.error "Registering protocols on Linux does not work", fs, [])
  else
    (.error ("Invalid process.platform: " ++ env.platform), fs, [])

/-- `DesktopUtils.unregisterAsMailtoHandler` (DesktopUtils.ts:64-81): the
same four-way switch for unregistration. -/
def unregisterAsMailtoHandler (env : PlatformEnv) (d : Utils) (c : CryptoFunctions)
    (fs : FileSys) : Except String Unit × FileSys × List Effect :=
  if env.platform = "win32" then
    doUnregisterMailtoOnWin32WithCurrentUser env d c fs
  else if env.platform = "darwin" then
    if env.removeHandlerOk then
      (.ok (), fs, [.removeDefaultHandler "mailto" true])
    else
      (.error "Could not unregister as mailto handler", fs,
        [.removeDefaultHandler "mailto" false])
  else if env.platform = "linux" then
    (.error "Registering protocols on Linux does not work", fs, [])
  else
    (.error ("Invalid process.platform: " ++ env.platform), fs, [])

/-! ## Stale-area purge model

`deleteTutanotaTempDir` (DesktopUtils.ts:246-264) calls
`fs.readdirSync(topLvlTmpDir)` and then `fs.rmSync(entry, {recursive:
true})` on each entry; an inner catch swallows `ENOENT`/`EACCES` per entry,
an outer catch swallows `ENOENT` from the whole block (the top-level
directory being absent).  The model takes the outcome each `rmSync` call
would have. -/

/-- The outcome of a single `fs.rmSync(path, {recursive: true})` call:
either it removed the entry or it threw an error with the given `code`. -/
inductive RmOutcome
  | removed
  | threw (code : String)
deriving Repr, DecidableEq

/-- The per-entry loop of `deleteTutanotaTempDir`: `rmSync` each entry in
order; an error with code `ENOENT` or `EACCES` is swallowed and the loop
continues; any other error propagates.  Returns the names on which
`rmSync` was invoked. -/
def rmEntries : List (String × RmOutcome) → Except String (List String)
  | [] => .ok []
  | (name, o) :: rest =>
    match o with
    | .removed => (rmEntries rest).map fun l => name :: l
    | .threw code =>
      if code = "ENOENT" ∨ code = "EACCES" then
        (rmEntries rest).map fun l => name :: l
      else .error code

/-- `DesktopUtils.deleteTutanotaTempDir` (DesktopUtils.ts:246-264).
`readdirResult` is what `fs.readdirSync(topLvlTmpDir)` does: either it
throws with a code, or it lists the entries (each paired with what
`rmSync` would do on it).  The outer catch re-throws any escaping error
whose code is not `ENOENT`.  On success, returns the entry names on which
deletion was attempted. -/
def deleteTutanotaTempDir
    (readdirResult : Except String (List (String × RmOutcome))) :
    Except String (List String) :=
  let attempt : Except String (List String) :=
    match readdirResult with
    | .error code => .error code
    | .ok entries => rmEntries entries
  match attempt with
  | .ok l => .ok l
  | .error code => if code = "ENOENT" then .ok [] else .error code

/-- Abbreviation for statements: the override check as it runs inside
`makeSingleInstance` after the grace period — on the filesystem left by the
initial best-effort write and the other instance's interference. -/
def overrideAfterWait (env : AppEnv) (fs : LockFs) : Bool × LockFs :=
  singleInstanceLockOverridden env
    (applyInterference (bestEffortWriteVersion env fs).2 env.otherWriteDuringWait)

/-! ## Theorems -/

/-- C2: `singleInstanceLockOverridden` reads the lock file, then overwrites
it with the own version, and resolves to `true` iff the observed content
differs from the own version; a read or write failure is swallowed and
yields `false`. -/
theorem singleInstanceLockOverridden_spec (env : AppEnv) (fs : LockFs) :
    (singleInstanceLockOverridden env fs =
      match fs.lock with
      | some observed =>
        if fs.readFails ∨ fs.writeFails then (false, fs)
        else (observed != env.version, { fs with lock := some env.version })
      | none => (false, fs)) ∧
    ((singleInstanceLockOverridden env fs).1 = true ↔
      fs.readFails = false ∧ fs.writeFails = false ∧
        ∃ observed, fs.lock = some observed ∧ observed ≠ env.version) := by
  obtain ⟨lock, rf, wf⟩ := fs
  cases rf <;> cases wf <;> cases lock <;>
    simp [singleInstanceLockOverridden, readLockFile, writeLockFile, bne_iff_ne]

/-- C1: `makeSingleInstance` follows the lock-claim algorithm: it first
performs the best-effort version write (errors swallowed), resolves `true`
immediately when the OS lock is granted (no wait, no quit), and otherwise
waits 1500 ms, runs the override check and returns its result `canStay`,
requesting the OS lock a second (and last) time when `canStay` holds and
calling `app.quit()` when it does not. -/
theorem makeSingleInstance_spec (env : AppEnv) (fs : LockFs) :
    (makeSingleInstance env fs =
      if env.lockGranted1 then
        (true, (bestEffortWriteVersion env fs).2,
          [.writeVersionFile (bestEffortWriteVersion env fs).1, .requestLock true])
      else
        ((overrideAfterWait env fs).1, (overrideAfterWait env fs).2,
          [.writeVersionFile (bestEffortWriteVersion env fs).1, .requestLock false,
           .delayMs 1500, .overrideCheck (overrideAfterWait env fs).1] ++
            if (overrideAfterWait env fs).1 then [.requestLock env.lockGranted2]
            else [.quitApp])) ∧
    ((makeSingleInstance env fs).2.2.countP LockEvent.isRequestLock =
      if env.lockGranted1 then 1 else if (overrideAfterWait env fs).1 then 2 else 1) ∧
    (LockEvent.delayMs 1500 ∈ (makeSingleInstance env fs).2.2 ↔ env.lockGranted1 = false) ∧
    (LockEvent.quitApp ∈ (makeSingleInstance env fs).2.2 ↔
      env.lockGranted1 = false ∧ (overrideAfterWait env fs).1 = false) := by
  cases hg : env.lockGranted1 <;>
    cases ho : (overrideAfterWait env fs).1 <;>
      simp_all [makeSingleInstance, overrideAfterWait, LockEvent.isRequestLock,
        List.countP, List.countP.go]

/-- C9: when the OS lock is initially refused and the override check says
`canStay`, `makeSingleInstance` resolves `true` no matter what the second
`requestSingleInstanceLock` call returns: the result is independent of
`lockGranted2`. -/
theorem makeSingleInstance_ignores_retry_result (env : AppEnv) (fs : LockFs)
    (h1 : env.lockGranted1 = false)
    (h2 : (overrideAfterWait env fs).1 = true) :
    (makeSingleInstance env fs).1 = true ∧
    ∀ b, (makeSingleInstance { env with lockGranted2 := b } fs).1 = true := by
  obtain ⟨v, g1, g2, ow⟩ := env
  subst h1
  have key : ∀ b : Bool,
      singleInstanceLockOverridden ⟨v, false, b, ow⟩ =
        singleInstanceLockOverridden ⟨v, false, g2, ow⟩ :=
    fun _ => rfl
  have key2 : ∀ b : Bool,
      bestEffortWriteVersion ⟨v, false, b, ow⟩ =
        bestEffortWriteVersion ⟨v, false, g2, ow⟩ :=
    fun _ => rfl
  refine ⟨?_, fun b => ?_⟩
  · simp_all [makeSingleInstance, overrideAfterWait]
  · cases b <;> simp_all [makeSingleInstance, overrideAfterWait, key, key2]

/-- Joining a non-empty component onto a path yields a different path. -/
theorem pathJoin_ne_left (a b : String) : pathJoin a b ≠ a := by
  intro h
  have h2 := congrArg String.length h
  simp only [pathJoin, String.length_append] at h2
  have h3 : ("/" : String).length = 1 := rfl
  omega

/-- The path just written by `writeFileMode` has the given mode. -/
theorem fileMode_writeFileMode_self (fs : FileSys) (p : String) (m : Nat) (c : String) :
    (fs.writeFileMode p m c).fileMode p = some m := by
  simp [FileSys.writeFileMode, FileSys.fileMode]

/-- `writeFileMode` does not change directories. -/
theorem dirMode_writeFileMode (fs : FileSys) (p : String) (m : Nat) (c : String)
    (q : String) : (fs.writeFileMode p m c).dirMode q = fs.dirMode q := rfl

/-- A directory freshly created by `mkdirRecursive` carries the requested
mode. -/
theorem dirMode_mkdirRecursive_fresh (fs : FileSys) (p : String) (m : Nat)
    (h : fs.hasDir p = false) : (fs.mkdirRecursive p m).dirMode p = some m := by
  simp [FileSys.mkdirRecursive, h, FileSys.dirMode]

/-- `mkdirRecursive` on one path does not affect the mode of another. -/
theorem dirMode_mkdirRecursive_other (fs : FileSys) (p q : String) (m : Nat)
    (h : p ≠ q) : (fs.mkdirRecursive p m).dirMode q = fs.dirMode q := by
  by_cases hd : fs.hasDir p <;>
    simp [FileSys.mkdirRecursive, hd, FileSys.dirMode, List.find?_cons, h]

/-- After `mkdirRecursive p`, the directory `p` exists. -/
theorem hasDir_mkdirRecursive_self (fs : FileSys) (p : String) (m : Nat) :
    (fs.mkdirRecursive p m).hasDir p = true := by
  by_cases h : fs.hasDir p = true <;> simp_all [FileSys.mkdirRecursive, FileSys.hasDir]

/-- `mkdirRecursive` is a no-op on an existing directory. -/
theorem mkdirRecursive_of_hasDir (fs : FileSys) (p : String) (m : Nat)
    (h : fs.hasDir p = true) : fs.mkdirRecursive p m = fs := by
  simp [FileSys.mkdirRecursive, h]

/-- The path just written by `writeFileMode` exists. -/
theorem fileExists_writeFileMode_self (fs : FileSys) (p : String) (m : Nat) (c : String) :
    (fs.writeFileMode p m c).fileExists p = true := by
  simp [FileSys.writeFileMode, FileSys.fileExists]

/-- After `unlink p`, the path `p` no longer exists. -/
theorem fileExists_unlink_self (fs : FileSys) (p : String) :
    (fs.unlink p).fileExists p = false := by
  simp [FileSys.unlink, FileSys.fileExists, List.any_eq_true, List.mem_filter]

/-- Witness for C9 at a concrete input: own version "2.0", another
instance writes "1.0" back during the wait, and the retried lock request
is refused, yet the call resolves `true`. -/
theorem makeSingleInstance_ignores_retry_result_witness :
    (makeSingleInstance ⟨"2.0", false, false, some "1.0"⟩ ⟨some "9", false, false⟩).1 = true ∧
    (makeSingleInstance ⟨"2.0", false, false, some "1.0"⟩ ⟨some "9", false, false⟩).1 = true :=
  ⟨(makeSingleInstance_ignores_retry_result ⟨"2.0", false, false, some "1.0"⟩
      ⟨some "9", false, false⟩ rfl (by decide)).1,
   (makeSingleInstance_ignores_retry_result ⟨"2.0", false, false, some "1.0"⟩
      ⟨some "9", false, false⟩ rfl (by decide)).2 false⟩

/-- C3: for every registry-script execution, the staged file exists
immediately before the helper process is spawned, the spawn consumes
exactly that file, the file no longer exists after the call on both the
success and the failure path, and the call resolves iff the helper exited
with code 0 (any other exit code or a signal rejects with the
registry-script error). -/
theorem executeRegistryScript_staging_discipline (d : Utils) (c : CryptoFunctions)
    (tempRoot script : String) (fs : FileSys) (exit : ExitStatus) :
    ((writeToDisk d c tempRoot script fs).2.fileExists
        (writeToDisk d c tempRoot script fs).1 = true) ∧
    ((executeRegistryScript d c tempRoot script fs exit).2.2 =
      [Effect.spawned "reg.exe" ["import", (writeToDisk d c tempRoot script fs).1]]) ∧
    ((executeRegistryScript d c tempRoot script fs exit).2.1.fileExists
        (writeToDisk d c tempRoot script fs).1 = false) ∧
    ((executeRegistryScript d c tempRoot script fs exit).1 =
      if exit = .exited 0 then .ok ()
      else .error "couldn't execute registry script") := by
  refine ⟨?_, ?_, ?_, ?_⟩
  · simpa [writeToDisk] using
      fileExists_writeFileMode_self _ _ 0o400 script
  · rcases exit with code | sig
    · cases code <;> rfl
    · rfl
  · rcases exit with code | sig
    · cases code <;>
        simpa [executeRegistryScript, writeToDisk] using
          fileExists_unlink_self _ _
    · simpa [executeRegistryScript, writeToDisk] using
        fileExists_unlink_self _ _
  · rcases exit with code | sig
    · cases code <;> simp [executeRegistryScript]
    · simp [executeRegistryScript]

/-- C6: the scratch-directory accessor is idempotent per process: the
random subdirectory name is fixed at construction as the URL-safe base64
encoding of `randomBytes(16)`, every call returns the identical path
`<temp>/tutanota/<random-subdir>` regardless of the filesystem, and a
second call creates nothing (the directory is created at most once). -/
theorem getTutanotaTempPath_idempotent (cf : CryptoFunctions) (tempRoot : String)
    (fs : FileSys) :
    ((mkUtils cf).randomDirectoryName =
      base64ToBase64Url (uint8ArrayToBase64 (cf.randomBytes 16))) ∧
    ((getTutanotaTempPath (mkUtils cf) tempRoot fs).1 =
      pathJoin (pathJoin tempRoot topLevelTempDir) (mkUtils cf).randomDirectoryName) ∧
    (∀ fs1 fs2 : FileSys,
      (getTutanotaTempPath (mkUtils cf) tempRoot fs1).1 =
        (getTutanotaTempPath (mkUtils cf) tempRoot fs2).1) ∧
    ((getTutanotaTempPath (mkUtils cf) tempRoot
        (getTutanotaTempPath (mkUtils cf) tempRoot fs).2).2 =
      (getTutanotaTempPath (mkUtils cf) tempRoot fs).2) := by
  refine ⟨rfl, rfl, fun fs1 fs2 => rfl, ?_⟩
  exact mkdirRecursive_of_hasDir _ _ _ (hasDir_mkdirRecursive_self _ _ _)

/-- C7: a staged registry script lives at `<scratch>/reg/<hex of 12 random
bytes>` with mode 0o400 (not group/other-readable, not owner-writable),
and a freshly created scratch directory has mode 0o700 (not
group/other-readable). -/
theorem writeToDisk_permissions (d : Utils) (cf : CryptoFunctions)
    (tempRoot contents : String) (fs : FileSys)
    (hfresh : fs.hasDir
      (pathJoin (pathJoin tempRoot topLevelTempDir) d.randomDirectoryName) = false) :
    ((writeToDisk d cf tempRoot contents fs).1 =
      pathJoin
        (pathJoin (pathJoin (pathJoin tempRoot topLevelTempDir) d.randomDirectoryName)
          "reg")
        (uint8ArrayToHex (cf.randomBytes 12))) ∧
    ((writeToDisk d cf tempRoot contents fs).2.fileMode
        (writeToDisk d cf tempRoot contents fs).1 = some 0o400) ∧
    ((writeToDisk d cf tempRoot contents fs).2.dirMode
        (pathJoin (pathJoin tempRoot topLevelTempDir) d.randomDirectoryName) =
      some 0o700) ∧
    (0o400 &&& 0o044 = 0 ∧ 0o400 &&& 0o200 = 0 ∧ 0o700 &&& 0o044 = 0) := by
  refine ⟨rfl, ?_, ?_, by decide⟩
  · simpa [writeToDisk] using
      fileMode_writeFileMode_self _ _ 0o400 contents
  · show ((_ : FileSys).writeFileMode _ _ _).dirMode _ = _
    rw [dirMode_writeFileMode]
    simp only [getTutanotaTempPath]
    rw [dirMode_mkdirRecursive_other _ _ _ _ (pathJoin_ne_left _ _),
      dirMode_mkdirRecursive_fresh _ _ _ hfresh]

/-- When every `rmSync` outcome is benign (removed, `ENOENT` or `EACCES`),
the per-entry loop visits every entry and succeeds. -/
theorem rmEntries_benign (entries : List (String × RmOutcome))
    (h : ∀ e ∈ entries,
      e.2 = .removed ∨ e.2 = .threw "ENOENT" ∨ e.2 = .threw "EACCES") :
    rmEntries entries = .ok (entries.map Prod.fst) := by
  induction entries with
  | nil => rfl
  | cons e rest ih =>
    obtain ⟨name, o⟩ := e
    have hrest := ih fun x hx => h x (List.mem_cons_of_mem _ hx)
    have hhead := h (name, o) (List.mem_cons_self _ _)
    cases o with
    | removed => simp [rmEntries, hrest, Except.map]
    | threw code =>
      have hc : code = "ENOENT" ∨ code = "EACCES" := by
        rcases hhead with h1 | h1 | h1 <;> simp_all
      simp only [rmEntries]
      rw [if_pos hc]
      simp [hrest, Except.map]

/-- A non-swallowed `rmSync` failure after benign entries aborts the
loop with that error code. -/
theorem rmEntries_abort (pre : List (String × RmOutcome)) (name code : String)
    (post : List (String × RmOutcome))
    (hpre : ∀ e ∈ pre,
      e.2 = .removed ∨ e.2 = .threw "ENOENT" ∨ e.2 = .threw "EACCES")
    (h1 : code ≠ "ENOENT") (h2 : code ≠ "EACCES") :
    rmEntries (pre ++ (name, .threw code) :: post) = .error code := by
  induction pre with
  | nil => simp [rmEntries, h1, h2]
  | cons e rest ih =>
    obtain ⟨n, o⟩ := e
    have hrest := ih fun x hx => hpre x (List.mem_cons_of_mem _ hx)
    have hhead := hpre (n, o) (List.mem_cons_self _ _)
    cases o with
    | removed => simp [rmEntries, hrest, Except.map]
    | threw hcode =>
      have hc : hcode = "ENOENT" ∨ hcode = "EACCES" := by
        rcases hhead with hb | hb | hb <;> simp_all
      simp only [List.cons_append, rmEntries]
      rw [if_pos hc]
      simp [hrest, Except.map]

/-- C4: the stale-area purge attempts a recursive delete of every entry
under the top-level temp directory; `ENOENT`/`EACCES` on one entry is
swallowed and the remaining entries are still processed; any other
per-entry failure aborts the sweep with that error; and an absent
top-level directory (`readdirSync` throwing `ENOENT`) completes without
error. -/
theorem deleteTutanotaTempDir_spec :
    (∀ entries : List (String × RmOutcome),
      (∀ e ∈ entries,
        e.2 = .removed ∨ e.2 = .threw "ENOENT" ∨ e.2 = .threw "EACCES") →
      deleteTutanotaTempDir (.ok entries) = .ok (entries.map Prod.fst)) ∧
    (∀ (pre : List (String × RmOutcome)) (name code : String)
        (post : List (String × RmOutcome)),
      (∀ e ∈ pre,
        e.2 = .removed ∨ e.2 = .threw "ENOENT" ∨ e.2 = .threw "EACCES") →
      code ≠ "ENOENT" → code ≠ "EACCES" →
      deleteTutanotaTempDir (.ok (pre ++ (name, .threw code) :: post)) = .error code) ∧
    deleteTutanotaTempDir (.error "ENOENT") = .ok [] := by
  refine ⟨fun entries h => ?_, fun pre name code post hpre h1 h2 => ?_, rfl⟩
  · simp [deleteTutanotaTempDir, rmEntries_benign entries h]
  · simp [deleteTutanotaTempDir, rmEntries_abort pre name code post hpre h1 h2, h1]

/-- Witness for C4 at concrete inputs: a benign sweep with one `ENOENT`
and one `EACCES` sibling, an aborting sweep with an `EPERM` entry, and an
absent top-level directory. -/
theorem deleteTutanotaTempDir_spec_witness :
    deleteTutanotaTempDir
        (.ok [("a", .removed), ("b", .threw "ENOENT"), ("c", .threw "EACCES")]) =
      .ok ["a", "b", "c"] ∧
    deleteTutanotaTempDir
        (.ok [("a", .removed), ("b", .threw "EPERM"), ("c", .removed)]) =
      .error "EPERM" ∧
    deleteTutanotaTempDir (.error "ENOENT") = .ok [] :=
  ⟨deleteTutanotaTempDir_spec.1
      [("a", .removed), ("b", .threw "ENOENT"), ("c", .threw "EACCES")] (by decide),
   deleteTutanotaTempDir_spec.2.1 [("a", .removed)] "b" "EPERM" [("c", .removed)]
      (by decide) (by decide) (by decide),
   deleteTutanotaTempDir_spec.2.2⟩

/-- C10: the purge does not exclude the calling process's own scratch
area: when the listing contains the entry named by this instance's own
`randomDirectoryName`, that entry is among the ones deleted. -/
theorem deleteTutanotaTempDir_includes_own_scratch (d : Utils)
    (entries : List (String × RmOutcome))
    (h : ∀ e ∈ entries, e.2 = .removed)
    (hmem : (d.randomDirectoryName, RmOutcome.removed) ∈ entries) :
    ∃ l, deleteTutanotaTempDir (.ok entries) = .ok l ∧ d.randomDirectoryName ∈ l := by
  refine ⟨entries.map Prod.fst, ?_, ?_⟩
  · simp [deleteTutanotaTempDir,
      rmEntries_benign entries fun e he => Or.inl (h e he)]
  · exact List.mem_map_of_mem Prod.fst hmem

/-- Witness for C10 at a concrete input: the instance's own scratch entry
is the sole listing entry and it is deleted. -/
theorem deleteTutanotaTempDir_includes_own_scratch_witness :
    ∃ l, deleteTutanotaTempDir (.ok [("A", RmOutcome.removed)]) = .ok l ∧
      (Utils.mk "A").randomDirectoryName ∈ l :=
  deleteTutanotaTempDir_includes_own_scratch ⟨"A"⟩ [("A", .removed)]
    (by decide) (by decide)

/-- Witness for C7 at a concrete input: zero randomness, empty filesystem,
temp root `/tmp`. -/
theorem writeToDisk_permissions_witness :
    ((writeToDisk ⟨"AAAAAAAAAAAAAAAAAAAAAA"⟩ ⟨fun _ => List.replicate 12 0⟩ "/tmp" "x"
        ⟨[], []⟩).1 =
      pathJoin
        (pathJoin (pathJoin (pathJoin "/tmp" topLevelTempDir) "AAAAAAAAAAAAAAAAAAAAAA")
          "reg")
        (uint8ArrayToHex (List.replicate 12 0))) ∧
    ((writeToDisk ⟨"AAAAAAAAAAAAAAAAAAAAAA"⟩ ⟨fun _ => List.replicate 12 0⟩ "/tmp" "x"
        ⟨[], []⟩).2.fileMode
      (writeToDisk ⟨"AAAAAAAAAAAAAAAAAAAAAA"⟩ ⟨fun _ => List.replicate 12 0⟩ "/tmp" "x"
        ⟨[], []⟩).1 = some 0o400) ∧
    ((writeToDisk ⟨"AAAAAAAAAAAAAAAAAAAAAA"⟩ ⟨fun _ => List.replicate 12 0⟩ "/tmp" "x"
        ⟨[], []⟩).2.dirMode
      (pathJoin (pathJoin "/tmp" topLevelTempDir) "AAAAAAAAAAAAAAAAAAAAAA") =
      some 0o700) ∧
    (0o400 &&& 0o044 = 0 ∧ 0o400 &&& 0o200 = 0 ∧ 0o700 &&& 0o044 = 0) :=
  writeToDisk_permissions ⟨"AAAAAAAAAAAAAAAAAAAAAA"⟩ ⟨fun _ => List.replicate 12 0⟩
    "/tmp" "x" ⟨[], []⟩ rfl

/-- C5: `registerAsMailtoHandler` and `unregisterAsMailtoHandler` dispatch
on exactly four platform branches: win32 runs the privileged registry
flow; darwin makes the single OS API call and throws iff it reports
failure; linux always throws immediately with a descriptive error, without
touching the filesystem or spawning anything (unchanged filesystem, empty
effect trace); and any other platform throws an error naming the
unrecognized platform value, likewise effect-free. -/
theorem mailtoHandler_platform_dispatch (env : PlatformEnv) (d : Utils)
    (c : CryptoFunctions) (fs : FileSys) :
    (env.platform = "win32" →
      registerAsMailtoHandler env d c fs =
        doRegisterMailtoOnWin32WithCurrentUser env d c fs ∧
      unregisterAsMailtoHandler env d c fs =
        doUnregisterMailtoOnWin32WithCurrentUser env d c fs) ∧
    (env.platform = "darwin" →
      registerAsMailtoHandler env d c fs =
        ((if env.setHandlerOk then .ok ()
          else .error "Could not register as mailto handler"),
         fs, [.setDefaultHandler "mailto" env.setHandlerOk]) ∧
      unregisterAsMailtoHandler env d c fs =
        ((if env.removeHandlerOk then .ok ()
          else .error "Could not unregister as mailto handler"),
         fs, [.removeDefaultHandler "mailto" env.removeHandlerOk])) ∧
    (env.platform = "linux" →
      registerAsMailtoHandler env d c fs =
        (.error "Registering protocols on Linux does not work", fs, []) ∧
      unregisterAsMailtoHandler env d c fs =
        (.error "Registering protocols on Linux does not work", fs, [])) ∧
    (env.platform ≠ "win32" → env.platform ≠ "darwin" → env.platform ≠ "linux" →
      registerAsMailtoHandler env d c fs =
        (.error ("Invalid process.platform: " ++ env.platform), fs, []) ∧
      unregisterAsMailtoHandler env d c fs =
        (.error ("Invalid process.platform: " ++ env.platform), fs, [])) := by
  refine ⟨fun h => ⟨?_, ?_⟩, fun h => ⟨?_, ?_⟩, fun h => ⟨?_, ?_⟩,
    fun h1 h2 h3 => ⟨?_, ?_⟩⟩
  · simp [registerAsMailtoHandler, h]
  · simp [unregisterAsMailtoHandler, h]
  · cases hok : env.setHandlerOk <;> simp [registerAsMailtoHandler, h, hok]
  · cases hok : env.removeHandlerOk <;> simp [unregisterAsMailtoHandler, h, hok]
  · simp [registerAsMailtoHandler, h]
  · simp [unregisterAsMailtoHandler, h]
  · simp [registerAsMailtoHandler, h1, h2, h3]
  · simp [unregisterAsMailtoHandler, h1, h2, h3]

/-- Witness for C5 at concrete inputs: the linux branch and an
unrecognized platform value ("sunos"), for both register and unregister. -/
theorem mailtoHandler_platform_dispatch_witness :
    (registerAsMailtoHandler ⟨"linux", true, true, .exited 0, true, "/tmp", "r", "u"⟩
        ⟨"A"⟩ ⟨fun _ => []⟩ ⟨[], []⟩ =
      (.error "Registering protocols on Linux does not work", ⟨[], []⟩, []) ∧
     unregisterAsMailtoHandler ⟨"linux", true, true, .exited 0, true, "/tmp", "r", "u"⟩
        ⟨"A"⟩ ⟨fun _ => []⟩ ⟨[], []⟩ =
      (.error "Registering protocols on Linux does not work", ⟨[], []⟩, [])) ∧
    (registerAsMailtoHandler ⟨"sunos", true, true, .exited 0, true, "/tmp", "r", "u"⟩
        ⟨"A"⟩ ⟨fun _ => []⟩ ⟨[], []⟩ =
      (.error ("Invalid process.platform: " ++ "sunos"), ⟨[], []⟩, []) ∧
     unregisterAsMailtoHandler ⟨"sunos", true, true, .exited 0, true, "/tmp", "r", "u"⟩
        ⟨"A"⟩ ⟨fun _ => []⟩ ⟨[], []⟩ =
      (.error ("Invalid process.platform: " ++ "sunos"), ⟨[], []⟩, [])) :=
  ⟨(mailtoHandler_platform_dispatch ⟨"linux", true, true, .exited 0, true, "/tmp", "r", "u"⟩
      ⟨"A"⟩ ⟨fun _ => []⟩ ⟨[], []⟩).2.2.1 rfl,
   (mailtoHandler_platform_dispatch ⟨"sunos", true, true, .exited 0, true, "/tmp", "r", "u"⟩
      ⟨"A"⟩ ⟨fun _ => []⟩ ⟨[], []⟩).2.2.2 (by decide) (by decide) (by decide)⟩

/-- C8: on win32, register and unregister end with the best-effort attempt
to open the default-applications settings page: the overall result is
independent of that attempt's outcome, a successful flow ends with the
settings events, and a failed attempt is logged and swallowed. -/
theorem openDefaultAppsSettings_best_effort (env : PlatformEnv) (d : Utils)
    (c : CryptoFunctions) (fs : FileSys) :
    (∀ b1 b2 : Bool,
      (doRegisterMailtoOnWin32WithCurrentUser { env with openSettingsOk := b1 } d c fs).1 =
        (doRegisterMailtoOnWin32WithCurrentUser { env with openSettingsOk := b2 } d c fs).1) ∧
    (∀ b1 b2 : Bool,
      (doUnregisterMailtoOnWin32WithCurrentUser { env with openSettingsOk := b1 } d c fs).1 =
        (doUnregisterMailtoOnWin32WithCurrentUser { env with openSettingsOk := b2 } d c fs).1) ∧
    (env.platform = "win32" → env.regExit = .exited 0 →
      (doRegisterMailtoOnWin32WithCurrentUser env d c fs).1 = .ok () ∧
      (doUnregisterMailtoOnWin32WithCurrentUser env d c fs).1 = .ok () ∧
      List.IsSuffix (openDefaultAppsSettings env.openSettingsOk)
        (doRegisterMailtoOnWin32WithCurrentUser env d c fs).2.2 ∧
      List.IsSuffix (openDefaultAppsSettings env.openSettingsOk)
        (doUnregisterMailtoOnWin32WithCurrentUser env d c fs).2.2) ∧
    openDefaultAppsSettings false =
      [.openExternal "ms-settings:defaultapps" false,
       .logError "failed to open default apps settings page:"] := by
  obtain ⟨p, sOk, rOk, rx, oOk, tr, rs, us⟩ := env
  refine ⟨fun b1 b2 => ?_, fun b1 b2 => ?_, fun hp hx => ?_, rfl⟩
  · by_cases hp : p = "win32"
    · subst hp
      rcases hr : (executeRegistryScript d c tr rs fs rx).1 with e | u <;>
        simp [doRegisterMailtoOnWin32WithCurrentUser, hr]
    · simp [doRegisterMailtoOnWin32WithCurrentUser, hp]
  · by_cases hp : p = "win32"
    · subst hp
      rcases hr : (executeRegistryScript d c tr us fs rx).1 with e | u <;>
        simp [doUnregisterMailtoOnWin32WithCurrentUser, hr]
    · simp [doUnregisterMailtoOnWin32WithCurrentUser, hp]
  · simp only at hp hx
    subst hp
    subst hx
    exact ⟨rfl, rfl, List.suffix_append _ _, List.suffix_append _ _⟩

/-- Witness for C8 at a concrete input: win32, registry script succeeds,
and the settings page fails to open, yet both flows resolve and end with
the logged, swallowed settings attempt. -/
theorem openDefaultAppsSettings_best_effort_witness :
    (doRegisterMailtoOnWin32WithCurrentUser
        ⟨"win32", true, true, .exited 0, false, "/tmp", "r", "u"⟩
        ⟨"A"⟩ ⟨fun _ => []⟩ ⟨[], []⟩).1 = .ok () ∧
    (doUnregisterMailtoOnWin32WithCurrentUser
        ⟨"win32", true, true, .exited 0, false, "/tmp", "r", "u"⟩
        ⟨"A"⟩ ⟨fun _ => []⟩ ⟨[], []⟩).1 = .ok () ∧
    List.IsSuffix (openDefaultAppsSettings false)
      (doRegisterMailtoOnWin32WithCurrentUser
        ⟨"win32", true, true, .exited 0, false, "/tmp", "r", "u"⟩
        ⟨"A"⟩ ⟨fun _ => []⟩ ⟨[], []⟩).2.2 ∧
    List.IsSuffix (openDefaultAppsSettings false)
      (doUnregisterMailtoOnWin32WithCurrentUser
        ⟨"win32", true, true, .exited 0, false, "/tmp", "r", "u"⟩
        ⟨"A"⟩ ⟨fun _ => []⟩ ⟨[], []⟩).2.2 :=
  (openDefaultAppsSettings_best_effort
      ⟨"win32", true, true, .exited 0, false, "/tmp", "r", "u"⟩
      ⟨"A"⟩ ⟨fun _ => []⟩ ⟨[], []⟩).2.2.1 rfl rfl

end DesktopUtils
